import Mathlib

/-!
Shallow embedding of the WATERSCOPE repository's core pipeline: the
token manager (src/src/sentinel_hub/auth.py), the two Process API
clients (src/src/sentinel_hub/process_api.py and
src/process_api_fixed.py), the ingestion orchestrator
(src/src/ingestion/ingestion_service.py) and the analytics routes
(src/src/api/routes/analytics.py).

Python floats are modelled as rationals in the analytics layer and the
evalscript arithmetic (whose claims are exercised on concrete inputs),
and as real numbers in the geodesic surface-area estimator (which calls
the cosine).  Python's round(x, n) is modelled as rounding half-up at n
decimal places.
-/

namespace WaterScope

/-- Python round(x, 2) on rationals: round to 2 decimal places. -/
def round2Q (x : ℚ) : ℚ := (round (100 * x) : ℤ) / 100

/-! ## Analytics layer (src/src/api/routes/analytics.py)

The Elasticsearch adapter returns each time series already sorted
ascending by timestamp (get_waterbody_timeseries uses
sort: timestamp asc), so the routes' own results.sort(...) is the
identity on it; the functions below therefore take the series in that
ascending order. -/

/-- One stored measurement document as read back from the
waterbody_stats index, restricted to the fields the analytics routes
use.  The name field models dict.get('name', ...): absent names are
none. -/
structure Measurement where
  name : Option String
  surface_area_hectares : ℚ
  timestamp : ℕ
deriving DecidableEq

/-- Placeholder used for Python's results[-1] indexing, which the code
only performs on lists already known to be non-empty. -/
def defaultMeasurement : Measurement := { name := none, surface_area_hectares := 0, timestamp := 0 }

/-- Output schema of the drought-risk route (DroughtRiskAnalysis in
src/src/api/models/schemas.py, as populated by
calculate_single_drought_risk). -/
structure DroughtRiskAnalysis where
  waterbody_id : String
  name : String
  current_area_hectares : ℚ
  baseline_area_hectares : ℚ
  percentage_change : ℚ
  risk_level : String
  trend : String
  last_updated : ℕ
deriving DecidableEq

/-- Drought-risk computation for one waterbody
(calculate_single_drought_risk, src/src/api/routes/analytics.py lines
85-150) on the ascending series returned by the repository.  Returns
none when fewer than 2 points are available (the route maps that to an
HTTP 404). -/
def calculate_single_drought_risk (waterbody_id : String) :
    List Measurement → Option DroughtRiskAnalysis
  | [] => none
  | [_] => none
  | r0 :: r1 :: rs =>
    let results := r0 :: r1 :: rs
    let name := r0.name.getD waterbody_id
    let current_area := (results.getLastD defaultMeasurement).surface_area_hectares
    let last_updated := (results.getLastD defaultMeasurement).timestamp
    let baseline_area :=
      (results.map (fun r => r.surface_area_hectares)).sum / (results.length : ℚ)
    let percentage_change := ((current_area - baseline_area) / baseline_area) * 100
    let risk_level :=
      if percentage_change ≥ -5 then "LOW"
      else if percentage_change ≥ -15 then "MEDIUM"
      else if percentage_change ≥ -30 then "HIGH"
      else "CRITICAL"
    let mid_point := results.length / 2
    let recent := results.drop mid_point
    let older := results.take mid_point
    let recent_avg :=
      (recent.map (fun r => r.surface_area_hectares)).sum / ((max recent.length 1 : ℕ) : ℚ)
    let older_avg :=
      (older.map (fun r => r.surface_area_hectares)).sum / ((max older.length 1 : ℕ) : ℚ)
    let trend :=
      if recent_avg > older_avg * 1.02 then "INCREASING"
      else if recent_avg < older_avg * 0.98 then "DECLINING"
      else "STABLE"
    some
      { waterbody_id := waterbody_id
        name := name
        current_area_hectares := round2Q current_area
        baseline_area_hectares := round2Q baseline_area
        percentage_change := round2Q percentage_change
        risk_level := risk_level
        trend := trend
        last_updated := last_updated }

/-- Mean of the surface areas of a series (the routes' sum(...)/len(...)
pattern). -/
def meanArea (l : List Measurement) : ℚ :=
  (l.map (fun r => r.surface_area_hectares)).sum / (l.length : ℚ)

/-- Percentage change of the most recent area against the
mean-of-series baseline, the quantity the drought route derives its
risk level from. -/
def droughtPercentageChange (results : List Measurement) : ℚ :=
  let current_area := (results.getLastD defaultMeasurement).surface_area_hectares
  let baseline_area :=
    (results.map (fun r => r.surface_area_hectares)).sum / (results.length : ℚ)
  ((current_area - baseline_area) / baseline_area) * 100

/-- Risk cascade exactly as the specification words it: boundaries
inclusive on the upper (less negative) side, evaluated descending. -/
def specRiskLevel (pc : ℚ) : String :=
  if pc ≥ -5 then "LOW"
  else if pc ≥ -15 then "MEDIUM"
  else if pc ≥ -30 then "HIGH"
  else "CRITICAL"

/-- Trend label exactly as the specification words it: compare the mean
of the later half against the mean of the earlier half with a 2 percent
dead band. -/
def specTrendLabel (recent_avg older_avg : ℚ) : String :=
  if recent_avg > older_avg * 1.02 then "INCREASING"
  else if recent_avg < older_avg * 0.98 then "DECLINING"
  else "STABLE"

/-- Trend direction exactly as the specification words it for
assess_trend. -/
def specDirection (pc : ℚ) : String :=
  if pc > 2 then "UP"
  else if pc < -2 then "DOWN"
  else "STABLE"

/-- Output schema of the trend route (TrendAnalysis in
src/src/api/models/schemas.py, as populated by analyze_trend). -/
structure TrendAnalysis where
  waterbody_id : String
  name : String
  period_months : ℕ
  start_area_hectares : ℚ
  end_area_hectares : ℚ
  total_change_hectares : ℚ
  percentage_change : ℚ
  average_monthly_change : ℚ
  trend_direction : String
deriving DecidableEq

/-- Trend route handler (analyze_trend, src/src/api/routes/analytics.py
lines 195-264).  FastAPI validates months with ge=3, le=60 before the
handler body runs (modelled as the 422 branch); fewer than 2 points
yields the 404 Insufficient-data response; a zero start area makes the
Python handler raise ZeroDivisionError, converted by its blanket except
clause into an HTTP 500 (modelled as the 500 branch). -/
def analyze_trend (waterbody_id : String) (results : List Measurement) (months : ℕ) :
    Except (ℕ × String) TrendAnalysis :=
  if months < 3 ∨ 60 < months then .error (422, "validation error")
  else
    match results with
    | [] => .error (404, "Insufficient data")
    | [_] => .error (404, "Insufficient data")
    | r0 :: r1 :: rs =>
      let results := r0 :: r1 :: rs
      let name := r0.name.getD waterbody_id
      let start_area := r0.surface_area_hectares
      let end_area := (results.getLastD defaultMeasurement).surface_area_hectares
      if start_area = 0 then .error (500, "float division by zero")
      else
        let total_change := end_area - start_area
        let percentage_change := (total_change / start_area) * 100
        let average_monthly_change := total_change / (months : ℚ)
        let trend_direction :=
          if percentage_change > 2 then "UP"
          else if percentage_change < -2 then "DOWN"
          else "STABLE"
        .ok
          { waterbody_id := waterbody_id
            name := name
            period_months := months
            start_area_hectares := round2Q start_area
            end_area_hectares := round2Q end_area
            total_change_hectares := round2Q total_change
            percentage_change := round2Q percentage_change
            average_monthly_change := round2Q average_monthly_change
            trend_direction := trend_direction }

/-! ## Token manager (src/src/sentinel_hub/auth.py) -/

/-- Mutable slot of SentinelHubAuth: the cached bearer token and its
recorded expiry instant (seconds). -/
structure AuthState where
  access_token : Option String
  token_expires_at : Option ℤ
deriving DecidableEq

/-- Decoded JSON body of the identity service's token response:
access_token is mandatory, expires_in optional (data.get('expires_in',
600)). -/
structure TokenResponse where
  access_token : String
  expires_in : Option ℕ
deriving DecidableEq

/-- Token validity check (_is_token_valid, auth.py lines 56-62): a
cached token counts as valid while now is more than the 5-minute
(300 s) safety buffer before its recorded expiry. -/
def is_token_valid (s : AuthState) (now : ℤ) : Bool :=
  match s.access_token, s.token_expires_at with
  | some _, some expires_at => decide (now < expires_at - 300)
  | _, _ => false

/-- Credential exchange (_fetch_new_token, auth.py lines 64-94) given
the identity service's decoded response: caches the fresh token with
expiry now + expires_in, defaulting the lifetime to 600 s when the
response carries none.  The last component counts credential exchanges
performed by the call (here exactly one). -/
def fetch_new_token (now : ℤ) (resp : TokenResponse) : String × AuthState × ℕ :=
  let expires_in := resp.expires_in.getD 600
  (resp.access_token,
    { access_token := some resp.access_token,
      token_expires_at := some (now + (expires_in : ℤ)) },
    1)

/-- Cached-token accessor (get_token, auth.py lines 42-54): return the
cached token without an exchange while it is still valid, otherwise
perform exactly one credential exchange. -/
def get_token (s : AuthState) (now : ℤ) (resp : TokenResponse) : String × AuthState × ℕ :=
  match s.access_token with
  | some tok => if is_token_valid s now then (tok, s, 0) else fetch_new_token now resp
  | none => fetch_new_token now resp

/-! ## Per-pixel evalscripts of the two request builders -/

/-- Denominator of the NDWI computed by the evalscript of the
JSON-response client (_get_ndwi_evalscript,
src/src/sentinel_hub/process_api.py lines 136-177): B03 + B08 + 0.0001. -/
def ndwiDenominatorV1 (b03 b08 : ℚ) : ℚ := b03 + b08 + 0.0001

/-- Per-pixel water classifier of the evalscript built by the
JSON-response client: ndwi = (B03 - B08) / (B03 + B08 + 0.0001);
cloud-flagged pixels (SCL 8, 9 or 3) return 0; water when ndwi > 0.2. -/
def evaluatePixelV1 (b03 b08 : ℚ) (scl : ℕ) : ℚ :=
  let ndwi := (b03 - b08) / ndwiDenominatorV1 b03 b08
  if scl = 8 ∨ scl = 9 ∨ scl = 3 then 0
  else if ndwi > 0.2 then 1 else 0

/-- Denominator of the NDWI computed by the evalscript of the modified
client (_build_request_payload, src/process_api_fixed.py lines
126-156): exactly B03 + B08, with no epsilon term. -/
def ndwiDenominatorFixed (b03 b08 : ℚ) : ℚ := b03 + b08

/-- Per-pixel water classifier of the evalscript built by the modified
client: cloud-flagged pixels (SCL 3, 8 or 9) return 0; otherwise
ndwi = (B03 - B08) / (B03 + B08), water when ndwi > 0.0.  The
denominator is exposed separately because the JavaScript division is a
0/0 (NaN) when B03 + B08 = 0. -/
def evaluatePixelFixed (b03 b08 : ℚ) (scl : ℕ) : ℚ :=
  if scl = 3 ∨ scl = 8 ∨ scl = 9 then 0
  else if (b03 - b08) / ndwiDenominatorFixed b03 b08 > 0.0 then 1 else 0

/-! ## Surface area estimator (src/process_api_fixed.py, _process_response)

Python floats are modelled as real numbers here because the area
conversion calls np.cos.  The decode of the tar-wrapped TIFF into a
pixel grid is performed by external libraries (tarfile, PIL, numpy);
its outcome is taken as an input: Except.ok with the resulting pixel
counts, or Except.error with the raised exception's message. -/

/-- Pixel counts extracted from the decoded water-mask raster:
water_pixels is np.sum(img_array == 1), total_pixels is img_array.size. -/
structure RasterResult where
  water_pixels : ℕ
  total_pixels : ℕ
deriving DecidableEq

/-- Result dictionary of _process_response. -/
structure EstimateRec where
  surface_area_hectares : ℝ
  water_pixels : ℕ
  total_pixels : ℕ
  water_fraction : ℝ
  error : Option String

/-- Python round(x, 2) on reals. -/
noncomputable def round2R (x : ℝ) : ℝ := (round (100 * x) : ℤ) / 100

/-- Python round(x, 4) on reals. -/
noncomputable def round4R (x : ℝ) : ℝ := (round (10000 * x) : ℤ) / 10000

/-- Python max over a list of floats.  Python raises ValueError on an
empty list; the estimator only applies this to non-empty lists (the
empty-geometry case takes the error branch instead), so the value at []
is irrelevant. -/
noncomputable def pyMax : List ℝ → ℝ
  | [] => 0
  | x :: xs => xs.foldl max x

/-- Python min over a list of floats; same conventions as pyMax. -/
noncomputable def pyMin : List ℝ → ℝ
  | [] => 0
  | x :: xs => xs.foldl min x

/-- Exception message raised when the geometry ring is empty (Python's
max() on an empty sequence), caught by the same blanket except clause. -/
def emptyRingMsg : String := "max() arg is an empty sequence"

/-- Surface-area estimation (_process_response, src/process_api_fixed.py
lines 192-289).  The geometry argument is the first coordinate ring
(geometry['coordinates'][0]) as (lon, lat) pairs.  Any failure - a
decode error or an empty ring - is caught and converted into the
zero-area record annotated with the error message; on success the
bounding-box degree spans are converted to kilometers (111.32 km/deg of
latitude, 111.32 * cos(radians(mean latitude)) km/deg of longitude),
scaled by the water-pixel fraction, converted to hectares (* 100) and
rounded to 2 decimals. -/
noncomputable def processResponse (decoded : Except String RasterResult)
    (coords : List (ℝ × ℝ)) : EstimateRec :=
  match decoded, coords with
  | .error e, _ =>
    { surface_area_hectares := 0, water_pixels := 0, total_pixels := 0,
      water_fraction := 0, error := some e }
  | .ok _, [] =>
    { surface_area_hectares := 0, water_pixels := 0, total_pixels := 0,
      water_fraction := 0, error := some emptyRingMsg }
  | .ok r, c :: cs =>
    let lons := (c :: cs).map Prod.fst
    let lats := (c :: cs).map Prod.snd
    let lon_range := pyMax lons - pyMin lons
    let lat_range := pyMax lats - pyMin lats
    let avg_lat := lats.sum / (lats.length : ℝ)
    let km_per_deg_lon := 111.32 * Real.cos (avg_lat * Real.pi / 180)
    let km_per_deg_lat := (111.32 : ℝ)
    let area_km2 := (lon_range * km_per_deg_lon) * (lat_range * km_per_deg_lat)
    let water_fraction :=
      if 0 < r.total_pixels then (r.water_pixels : ℝ) / (r.total_pixels : ℝ) else 0
    let water_area_km2 := area_km2 * water_fraction
    let water_area_hectares := water_area_km2 * 100
    { surface_area_hectares := round2R water_area_hectares,
      water_pixels := r.water_pixels,
      total_pixels := r.total_pixels,
      water_fraction := round4R water_fraction,
      error := none }

/-- Bounding-box area in square kilometers exactly as the specification
words it: the degree spans scaled by 111.32 km per degree of latitude
and 111.32 * cos(mean latitude in radians) km per degree of longitude. -/
noncomputable def specBBoxAreaKm2 (lon_span lat_span mean_lat : ℝ) : ℝ :=
  (lon_span * (111.32 * Real.cos (mean_lat * Real.pi / 180))) * (lat_span * 111.32)

/-- Hectare estimate exactly as the specification words it: bounding-box
km2 area times the water fraction, times 100, rounded to 2 decimals. -/
noncomputable def specSurfaceAreaHectares (lon_span lat_span mean_lat wf : ℝ) : ℝ :=
  round2R (specBBoxAreaKm2 lon_span lat_span mean_lat * wf * 100)

/-- Rectangle spanning 1 degree of longitude and 1 degree of latitude
whose vertex latitudes average exactly 45 (the specification's
mean-latitude-45 scenario). -/
noncomputable def scenarioCoords : List (ℝ × ℝ) :=
  [(0, 44.5), (1, 44.5), (1, 45.5), (0, 45.5)]

/-! ## Response parser and ingestion orchestrator
(src/src/sentinel_hub/process_api.py and
src/src/ingestion/ingestion_service.py) -/

/-- Constant data-source tag written by both the parser and the
ingestion document. -/
def sentinel2Source : String := "Sentinel-2"

/-- Result dictionary of _parse_response
(src/src/sentinel_hub/process_api.py lines 179-211).  It packages
identifiers, the time range and the raw response body; no field of it
carries a surface area and none is computed. -/
structure ParseResult where
  waterbody_id : String
  name : String
  time_range_start : String
  time_range_end : String
  data_source : String
  timestamp : String
  raw_response : String
deriving DecidableEq

/-- Response parser of the production client.  Python's
waterbody_name or waterbody_id treats both None and the empty string as
absent. -/
def parse_response (data : String) (waterbody_id : String)
    (waterbody_name : Option String) (trs tre ts : String) : ParseResult :=
  { waterbody_id := waterbody_id,
    name :=
      match waterbody_name with
      | none => waterbody_id
      | some s => if s = "" then waterbody_id else s,
    time_range_start := trs,
    time_range_end := tre,
    data_source := sentinel2Source,
    timestamp := ts,
    raw_response := data }

/-- Document written to the waterbody_stats index by ingest_waterbody. -/
structure StoredDoc where
  waterbody_id : String
  name : String
  timestamp : String
  surface_area_hectares : ℝ
  data_source : String
  geo_shape : String
  ingestion_date : String

/-- Document built on the success path of ingest_waterbody
(src/src/ingestion/ingestion_service.py lines 79-101): the surface-area
field is the hardcoded literal 0.0 (the source comments it with
"Will be calculated from response") and the parsed imagery result,
although bound, is never consulted. -/
def ingest_waterbody_doc (waterbody_id name now geometry : String)
    (result : ParseResult) : StoredDoc :=
  { waterbody_id := waterbody_id,
    name := name,
    timestamp := now,
    surface_area_hectares := 0.0,
    data_source := sentinel2Source,
    geo_shape := geometry,
    ingestion_date := now }

/-! ## Concrete sample inputs used to instantiate the theorems -/

/-- Sample waterbody identifier used on concrete instances. -/
def sampleId : String := "wb"

/-- Measurement with an absent name, a given area and timestamp. -/
def mkM (area : ℚ) (t : ℕ) : Measurement :=
  { name := none, surface_area_hectares := area, timestamp := t }

/-! ## Theorems -/

/-- C4: a successful run of ingest_waterbody stores a document whose
surface_area_hectares field is the hardcoded constant 0.0, identically
for any two parsed imagery responses - the parser's output never
reaches the stored area.  (The ParseResult record itself carries no
area field, so _parse_response cannot supply one.) -/
theorem ingestion_stores_hardcoded_zero_area (wid name now geom : String)
    (r r' : ParseResult) :
    (ingest_waterbody_doc wid name now geom r).surface_area_hectares = 0 ∧
    ingest_waterbody_doc wid name now geom r = ingest_waterbody_doc wid name now geom r' := by
  exact ⟨by norm_num [ingest_waterbody_doc], rfl⟩

/-- C5: whenever the drought-risk computation returns an analysis, its
risk level is exactly the specification's descending cascade applied to
the percentage change of the last area against the mean baseline
(boundaries inclusive on the less-negative side); in particular series
realising percentage changes of -4, -10, -20 and -40 classify as LOW,
MEDIUM, HIGH and CRITICAL respectively. -/
theorem drought_risk_cascade :
    (∀ (wid : String) (results : List Measurement) (a : DroughtRiskAnalysis),
      calculate_single_drought_risk wid results = some a →
      a.risk_level = specRiskLevel (droughtPercentageChange results)) ∧
    (calculate_single_drought_risk sampleId
      [mkM 104 0, mkM 96 1]).map DroughtRiskAnalysis.risk_level = some ("LOW") ∧
    (calculate_single_drought_risk sampleId
      [mkM 110 0, mkM 90 1]).map DroughtRiskAnalysis.risk_level = some ("MEDIUM") ∧
    (calculate_single_drought_risk sampleId
      [mkM 120 0, mkM 80 1]).map DroughtRiskAnalysis.risk_level = some ("HIGH") ∧
    (calculate_single_drought_risk sampleId
      [mkM 140 0, mkM 60 1]).map DroughtRiskAnalysis.risk_level = some ("CRITICAL") := by
  refine ⟨?_, ?_, ?_, ?_, ?_⟩
  case refine_2 => norm_num [calculate_single_drought_risk, mkM, defaultMeasurement]
  case refine_3 => norm_num [calculate_single_drought_risk, mkM, defaultMeasurement]
  case refine_4 => norm_num [calculate_single_drought_risk, mkM, defaultMeasurement]
  case refine_5 => norm_num [calculate_single_drought_risk, mkM, defaultMeasurement]
  intro wid results a h
  rcases results with _ | ⟨r0, _ | ⟨r1, rs⟩⟩
  · simp [calculate_single_drought_risk] at h
  · simp [calculate_single_drought_risk] at h
  · simp only [calculate_single_drought_risk, Option.some.injEq] at h
    subst h
    rfl

/-- C5 witness: the cascade relation instantiated on the concrete
two-point series with areas 104 and 96 (percentage change -4). -/
theorem drought_risk_cascade_witness :
    (({ waterbody_id := sampleId, name := sampleId, current_area_hectares := 96,
        baseline_area_hectares := 100, percentage_change := -4, risk_level := "LOW",
        trend := "DECLINING", last_updated := 1 } : DroughtRiskAnalysis)).risk_level =
      specRiskLevel (droughtPercentageChange [mkM 104 0, mkM 96 1]) := by
  exact drought_risk_cascade.1 sampleId [mkM 104 0, mkM 96 1] _
    (by norm_num [calculate_single_drought_risk, mkM, defaultMeasurement, round2Q,
      sampleId, round_eq])

/-- C7: whenever the drought-risk computation returns an analysis, its
trend label is the specification's midpoint-split comparison: the series
is split at index len/2 (later half inclusive), the mean of the later
half is compared against the mean of the earlier half with the 1.02 and
0.98 factors; and with exactly two points the split degrades to
comparing point 1 against point 0. -/
theorem drought_trend_split :
    (∀ (wid : String) (results : List Measurement) (a : DroughtRiskAnalysis),
      calculate_single_drought_risk wid results = some a →
      a.trend = specTrendLabel (meanArea (results.drop (results.length / 2)))
        (meanArea (results.take (results.length / 2)))) ∧
    (∀ (wid : String) (m0 m1 : Measurement) (a : DroughtRiskAnalysis),
      calculate_single_drought_risk wid [m0, m1] = some a →
      a.trend =
        if m1.surface_area_hectares > m0.surface_area_hectares * 1.02 then "INCREASING"
        else if m1.surface_area_hectares < m0.surface_area_hectares * 0.98 then "DECLINING"
        else "STABLE") := by
  refine ⟨?_, ?_⟩
  · intro wid results a h
    rcases results with _ | ⟨r0, _ | ⟨r1, rs⟩⟩
    · simp [calculate_single_drought_risk] at h
    · simp [calculate_single_drought_risk] at h
    · simp only [calculate_single_drought_risk, Option.some.injEq] at h
      subst h
      have hd : max ((r0 :: r1 :: rs).drop ((r0 :: r1 :: rs).length / 2)).length 1 =
          ((r0 :: r1 :: rs).drop ((r0 :: r1 :: rs).length / 2)).length := by
        simp only [List.length_drop, List.length_cons]
        omega
      have ht : max ((r0 :: r1 :: rs).take ((r0 :: r1 :: rs).length / 2)).length 1 =
          ((r0 :: r1 :: rs).take ((r0 :: r1 :: rs).length / 2)).length := by
        simp only [List.length_take, List.length_cons]
        omega
      simp only [specTrendLabel, meanArea, hd, ht]
  · intro wid m0 m1 a h
    simp only [calculate_single_drought_risk, Option.some.injEq] at h
    subst h
    norm_num

/-- C7 witness: the midpoint-split relation instantiated on the
concrete two-point series with areas 104 and 96 (declining trend). -/
theorem drought_trend_split_witness :
    (({ waterbody_id := sampleId, name := sampleId, current_area_hectares := 96,
        baseline_area_hectares := 100, percentage_change := -4, risk_level := "LOW",
        trend := "DECLINING", last_updated := 1 } : DroughtRiskAnalysis)).trend =
      specTrendLabel (meanArea ([mkM 104 0, mkM 96 1].drop 1))
        (meanArea ([mkM 104 0, mkM 96 1].take 1)) := by
  exact drought_trend_split.1 sampleId [mkM 104 0, mkM 96 1] _
    (by norm_num [calculate_single_drought_risk, mkM, defaultMeasurement, round2Q,
      sampleId, round_eq])

/-- C9: with fewer than two points, the drought computation signals
no-result (None, which the route maps to HTTP 404) and the trend route
answers the 404 Insufficient-data error - in both cases a distinct
not-computable outcome rather than a crash or a zero record. -/
theorem insufficient_data_signalled (wid : String) (results : List Measurement)
    (h : results.length < 2) :
    calculate_single_drought_risk wid results = none ∧
    analyze_trend wid results 12 = .error (404, "Insufficient data") := by
  rcases results with _ | ⟨r0, _ | ⟨r1, rs⟩⟩
  · exact ⟨rfl, rfl⟩
  · exact ⟨rfl, rfl⟩
  · simp at h
    omega

/-- C9 witness: the one-point series with area 5. -/
theorem insufficient_data_signalled_witness :
    calculate_single_drought_risk sampleId [mkM 5 0] = none ∧
    analyze_trend sampleId [mkM 5 0] 12 = .error (404, "Insufficient data") := by
  exact insufficient_data_signalled sampleId [mkM 5 0] (by norm_num)

/-- C8: for every series of at least 2 points (with non-zero start
area, where Python's division is defined) and every validated period,
the trend route takes the first point as start and the last as end,
reports total change end - start, percentage change
total / start * 100, average monthly change total / months, and labels
the direction UP when the percentage change exceeds 2, DOWN below -2,
STABLE otherwise; in particular 100 to 103 over 12 months gives
percentage change 3 and UP, 100 to 97 gives DOWN, 100 to 101 gives
STABLE. -/
theorem trend_assessment_formula :
    (∀ (wid : String) (months : ℕ) (r0 r1 : Measurement) (rs : List Measurement),
      3 ≤ months → months ≤ 60 → r0.surface_area_hectares ≠ 0 →
      analyze_trend wid (r0 :: r1 :: rs) months =
        .ok { waterbody_id := wid
              name := r0.name.getD wid
              period_months := months
              start_area_hectares := round2Q r0.surface_area_hectares
              end_area_hectares :=
                round2Q ((r0 :: r1 :: rs).getLastD defaultMeasurement).surface_area_hectares
              total_change_hectares :=
                round2Q (((r0 :: r1 :: rs).getLastD defaultMeasurement).surface_area_hectares -
                  r0.surface_area_hectares)
              percentage_change :=
                round2Q ((((r0 :: r1 :: rs).getLastD defaultMeasurement).surface_area_hectares -
                    r0.surface_area_hectares) / r0.surface_area_hectares * 100)
              average_monthly_change :=
                round2Q ((((r0 :: r1 :: rs).getLastD defaultMeasurement).surface_area_hectares -
                    r0.surface_area_hectares) / (months : ℚ))
              trend_direction :=
                specDirection ((((r0 :: r1 :: rs).getLastD defaultMeasurement).surface_area_hectares -
                    r0.surface_area_hectares) / r0.surface_area_hectares * 100) }) ∧
    analyze_trend sampleId [mkM 100 0, mkM 103 1] 12 =
      .ok { waterbody_id := sampleId, name := sampleId, period_months := 12,
            start_area_hectares := 100, end_area_hectares := 103,
            total_change_hectares := 3, percentage_change := 3,
            average_monthly_change := 0.25, trend_direction := "UP" } ∧
    (analyze_trend sampleId [mkM 100 0, mkM 97 1] 12).map TrendAnalysis.trend_direction =
      .ok ("DOWN") ∧
    (analyze_trend sampleId [mkM 100 0, mkM 101 1] 12).map TrendAnalysis.trend_direction =
      .ok ("STABLE") := by
  refine ⟨?_, ?_, ?_, ?_⟩
  · intro wid months r0 r1 rs h3 h60 h0
    rw [analyze_trend, if_neg (by omega)]
    show (if r0.surface_area_hectares = 0 then _ else _) = _
    rw [if_neg h0]
    rfl
  · norm_num [analyze_trend, mkM, defaultMeasurement, round2Q, round_eq, sampleId]
  · norm_num [analyze_trend, mkM, defaultMeasurement, round2Q, round_eq, sampleId,
      Except.map]
  · norm_num [analyze_trend, mkM, defaultMeasurement, round2Q, round_eq, sampleId,
      Except.map]

/-- C8 witness: the formula instantiated at the series 100 to 103 over
12 months. -/
theorem trend_assessment_formula_witness :
    analyze_trend sampleId [mkM 100 0, mkM 103 1] 12 =
      .ok { waterbody_id := sampleId, name := sampleId, period_months := 12,
            start_area_hectares := 100, end_area_hectares := 103,
            total_change_hectares := 3, percentage_change := 3,
            average_monthly_change := 0.25, trend_direction := "UP" } := by
  have h := trend_assessment_formula.1 sampleId 12 (mkM 100 0) (mkM 103 1) []
    (by norm_num) (by norm_num) (by norm_num [mkM])
  rw [h]
  norm_num [mkM, defaultMeasurement, round2Q, round_eq, sampleId, specDirection]

/-- C6: get_token returns the cached token with no credential exchange
while now is before the recorded expiry minus the 5-minute buffer, and
otherwise performs exactly one exchange, caching the fresh token with
the reported lifetime (600 s when the response reports none); in a
two-call scenario from an empty cache, the first call performs one
exchange and a second call inside the cached lifetime performs none
(the same token is returned and the state is unchanged), while a second
call at or past expiry-minus-buffer performs exactly one new exchange. -/
theorem token_caching :
    (∀ (s : AuthState) (now : ℤ) (resp : TokenResponse) (tok : String) (e : ℤ),
      s.access_token = some tok → s.token_expires_at = some e → now < e - 300 →
      get_token s now resp = (tok, s, 0)) ∧
    (∀ (s : AuthState) (now : ℤ) (resp : TokenResponse),
      is_token_valid s now = false →
      get_token s now resp =
        (resp.access_token,
          { access_token := some resp.access_token,
            token_expires_at := some (now + ((resp.expires_in.getD 600 : ℕ) : ℤ)) }, 1)) ∧
    (∀ (t1 t2 : ℤ) (resp1 resp2 : TokenResponse),
      t2 < t1 + ((resp1.expires_in.getD 600 : ℕ) : ℤ) - 300 →
      (get_token ⟨none, none⟩ t1 resp1).2.2 = 1 ∧
      get_token (get_token ⟨none, none⟩ t1 resp1).2.1 t2 resp2 =
        ((get_token ⟨none, none⟩ t1 resp1).1, (get_token ⟨none, none⟩ t1 resp1).2.1, 0)) ∧
    (∀ (t1 t2 : ℤ) (resp1 resp2 : TokenResponse),
      t1 + ((resp1.expires_in.getD 600 : ℕ) : ℤ) - 300 ≤ t2 →
      (get_token (get_token ⟨none, none⟩ t1 resp1).2.1 t2 resp2).2.2 = 1) := by
  refine ⟨?_, ?_, ?_, ?_⟩
  · intro s now resp tok e h1 h2 hlt
    rcases s with ⟨st, se⟩
    simp only at h1 h2
    subst h1; subst h2
    simp [get_token, is_token_valid, hlt]
  · intro s now resp hv
    rcases s with ⟨st, se⟩
    cases st with
    | none => rfl
    | some tok => simp [get_token, hv, fetch_new_token]
  · intro t1 t2 resp1 resp2 hlt
    refine ⟨rfl, ?_⟩
    show get_token ⟨some resp1.access_token,
      some (t1 + ((resp1.expires_in.getD 600 : ℕ) : ℤ))⟩ t2 resp2 = _
    simp [get_token, is_token_valid, hlt, fetch_new_token]
  · intro t1 t2 resp1 resp2 hge
    show (get_token ⟨some resp1.access_token,
      some (t1 + ((resp1.expires_in.getD 600 : ℕ) : ℤ))⟩ t2 resp2).2.2 = 1
    have hv : is_token_valid ⟨some resp1.access_token,
        some (t1 + ((resp1.expires_in.getD 600 : ℕ) : ℤ))⟩ t2 = false := by
      simp only [is_token_valid, decide_eq_false_iff_not]
      omega
    simp [get_token, hv, fetch_new_token]

/-- C6 witness: cache populated at time 0 with a 600 s lifetime; a call
at time 100 (inside the buffer-adjusted lifetime) reuses the cache, a
call at time 400 performs a new exchange. -/
theorem token_caching_witness :
    (get_token ⟨none, none⟩ 0 ⟨"tA", none⟩).2.2 = 1 ∧
    get_token (get_token ⟨none, none⟩ 0 ⟨"tA", none⟩).2.1 100 ⟨"tB", none⟩ =
      ((get_token ⟨none, none⟩ 0 ⟨"tA", none⟩).1,
        (get_token ⟨none, none⟩ 0 ⟨"tA", none⟩).2.1, 0) ∧
    (get_token (get_token ⟨none, none⟩ 0 ⟨"tA", none⟩).2.1 400 ⟨"tB", none⟩).2.2 = 1 := by
  refine ⟨(token_caching.2.2.1 0 100 ⟨"tA", none⟩ ⟨"tB", none⟩ (by norm_num)).1,
    (token_caching.2.2.1 0 100 ⟨"tA", none⟩ ⟨"tB", none⟩ (by norm_num)).2,
    token_caching.2.2.2 0 400 ⟨"tA", none⟩ ⟨"tB", none⟩ (by norm_num)⟩

/-- C10 counterexample: the evalscript built by the modified client
(src/process_api_fixed.py) computes its water index with denominator
exactly B03 + B08 and no epsilon term: at a pixel with green = nir = 0
the denominator is 0 (a 0/0 division in the script), whereas the
claimed form green + nir + epsilon with epsilon > 0 would give a
non-zero denominator there, as the other client's script does. -/
theorem evalscript_epsilon_counterexample :
    ndwiDenominatorFixed 0 0 = 0 ∧ ndwiDenominatorV1 0 0 = 0.0001 := by
  constructor
  · norm_num [ndwiDenominatorFixed]
  · norm_num [ndwiDenominatorV1]

/-- C10 amended: in the imagery request built by the JSON-response
client the per-pixel index is (green - nir) / (green + nir + 0.0001)
with 0.0001 > 0, so the denominator never vanishes; in both clients'
requests, pixels flagged by the scene-classification band as cloud
shadow (3), medium (8) or high (9) cloud probability are returned as
the non-water value; the modified client's script computes
(green - nir) / (green + nir) with no epsilon. -/
theorem evalscript_cloud_filter_and_epsilon :
    (∀ b03 b08 : ℚ, ndwiDenominatorV1 b03 b08 = b03 + b08 + 0.0001) ∧
    ((0 : ℚ) < 0.0001) ∧
    (∀ (b03 b08 : ℚ) (scl : ℕ), scl = 3 ∨ scl = 8 ∨ scl = 9 →
      evaluatePixelV1 b03 b08 scl = 0 ∧ evaluatePixelFixed b03 b08 scl = 0) ∧
    (∀ b03 b08 : ℚ, ndwiDenominatorFixed b03 b08 = b03 + b08) := by
  refine ⟨fun _ _ => rfl, by norm_num, ?_, fun _ _ => rfl⟩
  intro b03 b08 scl h
  constructor
  · rcases h with h | h | h <;> subst h <;> simp [evaluatePixelV1]
  · rcases h with h | h | h <;> subst h <;> simp [evaluatePixelFixed]

/-- C10 witness: a medium-cloud-probability pixel (SCL 8) is returned
as non-water by both evalscripts. -/
theorem evalscript_cloud_filter_witness :
    evaluatePixelV1 5 7 8 = 0 ∧ evaluatePixelFixed 5 7 8 = 0 := by
  exact evalscript_cloud_filter_and_epsilon.2.2.1 5 7 8 (Or.inr (Or.inl rfl))

/-! ## Helper lemmas for the estimator -/

/-- Folding max is monotone in the accumulator. -/
theorem foldl_max_le_foldl_max {x y : ℝ} (xs : List ℝ) (h : x ≤ y) :
    xs.foldl max x ≤ xs.foldl max y := by
  induction xs generalizing x y with
  | nil => simpa using h
  | cons a t ih => simpa [List.foldl_cons] using ih (max_le_max h le_rfl)

/-- The minimum of a list never exceeds its maximum. -/
theorem pyMin_le_pyMax (l : List ℝ) : pyMin l ≤ pyMax l := by
  cases l with
  | nil => simp [pyMin, pyMax]
  | cons x xs =>
    simp only [pyMin, pyMax]
    induction xs generalizing x with
    | nil => simp
    | cons a t ih =>
      simp only [List.foldl_cons]
      exact le_trans (ih (min x a)) (foldl_max_le_foldl_max t min_le_max)

/-- Rounding to two decimals preserves non-negativity. -/
theorem round2R_nonneg {x : ℝ} (hx : 0 ≤ x) : 0 ≤ round2R x := by
  unfold round2R
  have h : (0 : ℤ) ≤ round (100 * x) := by
    rw [round_eq]
    exact Int.floor_nonneg.mpr (by linarith)
  have h2 : (0 : ℝ) ≤ ((round (100 * x) : ℤ) : ℝ) := by exact_mod_cast h
  exact div_nonneg h2 (by norm_num)

/-- Rounding to two decimals moves a value by at most 1/200. -/
theorem round2R_abs_sub (x : ℝ) : |round2R x - x| ≤ 1 / 200 := by
  have h := abs_sub_round (100 * x)
  have h2 : round2R x - x = -((100 * x - ((round (100 * x) : ℤ) : ℝ)) / 100) := by
    unfold round2R; ring
  rw [h2, abs_neg, abs_div, abs_of_pos (by norm_num : (0 : ℝ) < 100)]
  linarith

/-- The mean of a non-empty list of values in [-90, 90] lies in
[-90, 90]. -/
theorem mean_mem_of_bounds (l : List ℝ) (hne : l ≠ [])
    (h : ∀ x ∈ l, -90 ≤ x ∧ x ≤ 90) :
    -90 ≤ l.sum / (l.length : ℝ) ∧ l.sum / (l.length : ℝ) ≤ 90 := by
  have hlen : 0 < (l.length : ℝ) := by
    have := List.length_pos.mpr hne
    exact_mod_cast this
  have hup : l.sum ≤ l.length • (90 : ℝ) :=
    List.sum_le_card_nsmul l 90 (fun x hx => (h x hx).2)
  have hlow : l.length • (-90 : ℝ) ≤ l.sum :=
    List.card_nsmul_le_sum l (-90) (fun x hx => (h x hx).1)
  rw [nsmul_eq_mul] at hup hlow
  constructor
  · rw [le_div_iff₀ hlen]; linarith
  · rw [div_le_iff₀ hlen]; linarith

/-- Cosine of a latitude (in degrees, within [-90, 90]) converted to
radians is non-negative. -/
theorem cos_deg_nonneg {a : ℝ} (h1 : -90 ≤ a) (h2 : a ≤ 90) :
    0 ≤ Real.cos (a * Real.pi / 180) := by
  have hpi := Real.pi_pos
  apply Real.cos_nonneg_of_mem_Icc
  constructor
  · have hh : 0 ≤ (a + 90) * Real.pi := mul_nonneg (by linarith) hpi.le
    rw [neg_le]
    nlinarith
  · have hh : 0 ≤ (90 - a) * Real.pi := mul_nonneg (by linarith) hpi.le
    nlinarith

/-- C2: the estimator never produces a negative hectare value on
geographically valid latitudes, and a raster with zero total pixels
yields surface area 0.0 and water fraction 0.0 with no division fault
(the guard replaces the quotient by 0).  Finiteness is inherent to the
real-valued model. -/
theorem estimator_zero_safe (decoded : Except String RasterResult)
    (coords : List (ℝ × ℝ)) :
    ((∀ p ∈ coords, -90 ≤ p.2 ∧ p.2 ≤ 90) →
      0 ≤ (processResponse decoded coords).surface_area_hectares) ∧
    (∀ r : RasterResult, decoded = Except.ok r → r.total_pixels = 0 →
      (processResponse decoded coords).surface_area_hectares = 0 ∧
      (processResponse decoded coords).water_fraction = 0) := by
  constructor
  · intro hlat
    cases decoded with
    | error e => simp [processResponse]
    | ok r =>
      cases coords with
      | nil => simp [processResponse]
      | cons c cs =>
        simp only [processResponse]
        apply round2R_nonneg
        have hlon := pyMin_le_pyMax ((c :: cs).map Prod.fst)
        have hlatr := pyMin_le_pyMax ((c :: cs).map Prod.snd)
        have hmean : -90 ≤ ((c :: cs).map Prod.snd).sum / ((((c :: cs).map Prod.snd)).length : ℝ) ∧
            ((c :: cs).map Prod.snd).sum / ((((c :: cs).map Prod.snd)).length : ℝ) ≤ 90 := by
          apply mean_mem_of_bounds
          · simp
          · intro x hx
            rcases List.mem_map.mp hx with ⟨p, hp, rfl⟩
            exact hlat p hp
        have hcos := cos_deg_nonneg hmean.1 hmean.2
        have hwf : 0 ≤ (if 0 < r.total_pixels then (r.water_pixels : ℝ) / (r.total_pixels : ℝ) else 0) := by
          split
          · positivity
          · exact le_rfl
        have harea : 0 ≤ ((pyMax ((c :: cs).map Prod.fst) - pyMin ((c :: cs).map Prod.fst)) *
            (111.32 * Real.cos (((c :: cs).map Prod.snd).sum / ((((c :: cs).map Prod.snd)).length : ℝ) * Real.pi / 180))) *
            ((pyMax ((c :: cs).map Prod.snd) - pyMin ((c :: cs).map Prod.snd)) * 111.32) := by
          apply mul_nonneg
          · exact mul_nonneg (by linarith) (mul_nonneg (by norm_num) hcos)
          · exact mul_nonneg (by linarith) (by norm_num)
        exact mul_nonneg (mul_nonneg harea hwf) (by norm_num)
  · intro r hr htp
    subst hr
    cases coords with
    | nil => exact ⟨rfl, rfl⟩
    | cons c cs =>
      simp only [processResponse, htp]
      norm_num [round2R, round4R]

/-- C2 witness: a zero-pixel raster over a single valid vertex. -/
theorem estimator_zero_safe_witness :
    0 ≤ (processResponse (Except.ok ⟨0, 0⟩) [((0 : ℝ), 10)]).surface_area_hectares ∧
    (processResponse (Except.ok ⟨0, 0⟩) [((0 : ℝ), 10)]).surface_area_hectares = 0 ∧
    (processResponse (Except.ok ⟨0, 0⟩) [((0 : ℝ), 10)]).water_fraction = 0 := by
  have hlat : ∀ p ∈ [((0 : ℝ), (10 : ℝ))], -90 ≤ p.2 ∧ p.2 ≤ 90 := by
    intro p hp
    simp only [List.mem_singleton] at hp
    subst hp
    norm_num
  exact ⟨(estimator_zero_safe (Except.ok ⟨0, 0⟩) [((0 : ℝ), 10)]).1 hlat,
    (estimator_zero_safe (Except.ok ⟨0, 0⟩) [((0 : ℝ), 10)]).2 ⟨0, 0⟩ rfl rfl⟩

/-- C3: the estimation step never propagates a failure: a decode error
becomes exactly the zero record annotated with that error message, and
in general every estimator output either carries no error or is the
zero record annotated with its error. -/
theorem estimator_error_policy (coords : List (ℝ × ℝ)) :
    (∀ msg : String, processResponse (.error msg) coords =
      { surface_area_hectares := 0, water_pixels := 0, total_pixels := 0,
        water_fraction := 0, error := some msg }) ∧
    (∀ decoded : Except String RasterResult,
      (processResponse decoded coords).error = none ∨
      processResponse decoded coords =
        { surface_area_hectares := 0, water_pixels := 0, total_pixels := 0,
          water_fraction := 0, error := (processResponse decoded coords).error }) := by
  constructor
  · intro msg; rfl
  · intro decoded
    cases decoded with
    | error e => exact Or.inr rfl
    | ok r =>
      cases coords with
      | nil => exact Or.inr rfl
      | cons c cs => exact Or.inl rfl

/-- C1: the estimator's hectare value is exactly the specification's
formula - bounding-box degree spans scaled by 111.32 km/deg of latitude
and 111.32 cos(mean latitude in radians) km/deg of longitude,
multiplied by the water fraction, converted to hectares (times 100) and
rounded to 2 decimals - and on a bbox spanning 1 degree by 1 degree at
mean latitude 45 with water fraction 1/2 the reported value is within
600 ha (0.14 percent) of the approximate figure 437,600 ha (the exact
value is 25 * 111.32^2 * sqrt 2, about 438,128.4 ha). -/
theorem surface_area_formula :
    (∀ (r : RasterResult) (c : ℝ × ℝ) (cs : List (ℝ × ℝ)),
      (processResponse (.ok r) (c :: cs)).surface_area_hectares =
        specSurfaceAreaHectares
          (pyMax ((c :: cs).map Prod.fst) - pyMin ((c :: cs).map Prod.fst))
          (pyMax ((c :: cs).map Prod.snd) - pyMin ((c :: cs).map Prod.snd))
          (((c :: cs).map Prod.snd).sum / ((((c :: cs).map Prod.snd)).length : ℝ))
          (if 0 < r.total_pixels then (r.water_pixels : ℝ) / (r.total_pixels : ℝ) else 0)) ∧
    |(processResponse (.ok ⟨1, 2⟩) scenarioCoords).surface_area_hectares - 437600| < 600 := by
  constructor
  · intro r c cs
    rfl
  · have hsurf : (processResponse (.ok ⟨1, 2⟩) scenarioCoords).surface_area_hectares =
        round2R (((1 : ℝ) * (111.32 * Real.cos (45 * Real.pi / 180))) *
          (1 * 111.32) * (1 / 2) * 100) := by
      show round2R _ = _
      congr 1
      have h1 : pyMax (scenarioCoords.map Prod.fst) = 1 := by
        simp only [scenarioCoords, List.map_cons, List.map_nil, pyMax, List.foldl_cons,
          List.foldl_nil]
        norm_num [max_def]
      have h2 : pyMin (scenarioCoords.map Prod.fst) = 0 := by
        simp only [scenarioCoords, List.map_cons, List.map_nil, pyMin, List.foldl_cons,
          List.foldl_nil]
        norm_num [min_def]
      have h3 : pyMax (scenarioCoords.map Prod.snd) = 45.5 := by
        simp only [scenarioCoords, List.map_cons, List.map_nil, pyMax, List.foldl_cons,
          List.foldl_nil]
        norm_num [max_def]
      have h4 : pyMin (scenarioCoords.map Prod.snd) = 44.5 := by
        simp only [scenarioCoords, List.map_cons, List.map_nil, pyMin, List.foldl_cons,
          List.foldl_nil]
        norm_num [min_def]
      have h5 : (scenarioCoords.map Prod.snd).sum /
          ((scenarioCoords.map Prod.snd).length : ℝ) = 45 := by
        simp only [scenarioCoords, List.map_cons, List.map_nil]
        norm_num
      simp only [scenarioCoords] at h1 h2 h3 h4 h5
      simp only [processResponse]
      rw [h1, h2, h3, h4, h5]
      norm_num
    rw [hsurf]
    have hθ : (45 : ℝ) * Real.pi / 180 = Real.pi / 4 := by ring
    rw [hθ, Real.cos_pi_div_four]
    have hs0 : (0 : ℝ) ≤ Real.sqrt 2 := Real.sqrt_nonneg 2
    have hs2 : Real.sqrt 2 ^ 2 = 2 := Real.sq_sqrt (by norm_num)
    have hlo : (1.41421 : ℝ) ≤ Real.sqrt 2 := by nlinarith
    have hhi : Real.sqrt 2 ≤ (1.41422 : ℝ) := by nlinarith
    set y := ((1 : ℝ) * (111.32 * (Real.sqrt 2 / 2))) * (1 * 111.32) * (1 / 2) * 100 with hy
    have hb := round2R_abs_sub y
    have hybounds : 438127 ≤ y ∧ y ≤ 438131 := by
      constructor <;> · rw [hy]; nlinarith
    rw [abs_le] at hb
    rw [abs_lt]
    constructor <;> nlinarith [hybounds.1, hybounds.2, hb.1, hb.2]

end WaterScope
